import Mathlib

set_option maxHeartbeats 1000000

namespace Amqp10

/-!
Shallow embedding of the AMQP 1.0 client core of this repository:

* the sender link (`src/unnamed/part_005`, `SenderLink.prototype.canSend`,
  `send`, `_sendMessage`, `_dispositionReceived`);
* the connection header negotiation and open-frame processing
  (`amqp10/lib/connection.js`, `Connection.prototype._tryReceiveHeader`,
  `_tryReceiveFrame`, `_processOpenFrame`, and the `connSM` state table);
* the codec encoder selection (`amqp10/lib/codec.js`, `Codec.prototype.encode`);
* the disposition frame constructor
  (`amqp10/lib/frames/disposition_frame.js`, `DispositionFrame`).

JavaScript numbers that only ever hold integers are modelled as `Int`
(session windows, link credit, which the code drives below zero) or `Nat`
(ids, sizes, which only grow).  Buffers are lists of bytes (`List Nat`).
-/

/-- Link state machine states of `link.js` (`src/unnamed/part_002`);
`Link.prototype.state()` reports the lower-cased machine state. -/
inductive LinkState
  | detached
  | attaching
  | attached
  | detaching
deriving DecidableEq, Repr, Inhabited

/-- A transfer frame as assembled by `_sendMessage` (fields of
`transferOptions` plus the per-frame `more` flag and payload slice).
`deliveryTag` is the byte content of the tag buffer.  The single-frame
branch of `_sendMessage` leaves `more` unset; `TransferFrame` treats an
unset `more` as `false`. -/
structure TransferFrame where
  channel : Nat
  handle : Nat
  deliveryId : Nat
  deliveryTag : List Nat
  settled : Bool
  more : Bool
  message : List Nat
deriving DecidableEq, Repr, Inhabited

/-- The mutable state that `SenderLink` and its session touch in
`canSend` / `send` / `_sendMessage` / `_dispositionReceived`:
the link fields (`linkCredit`, link-state), the session parameters
(`_sessionParams.nextOutgoingId`, `remoteIncomingWindow`, `outgoingWindow`,
`senderSettleMode`), the connection's negotiated `maxFrameSize`, the
session policy flag `enableSessionFlowControl`, the session-wide
`_deliveryTag` counter, the queued `_pendingSends` closures (identified by
the message they capture) and the keys of `_unsettledSends`. -/
structure SenderLink where
  linkState : LinkState
  linkCredit : Int
  enableSessionFlowControl : Bool
  nextOutgoingId : Nat
  remoteIncomingWindow : Int
  outgoingWindow : Int
  senderSettled : Bool
  maxFrameSize : Nat
  channel : Nat
  handle : Nat
  deliveryTag : Nat
  pendingSends : List (List Nat)
  unsettledSends : List Nat
deriving DecidableEq, Repr

/-- Embeds `SenderLink.prototype.canSend` (part_005 lines 37-46): attached, at
least one link credit, and — only when session flow control is enabled —
at least one unit of remote incoming window. -/
def SenderLink.canSend (l : SenderLink) : Bool :=
  if l.linkState ≠ LinkState.attached then
    false
  else
    decide (1 ≤ l.linkCredit) &&
      (!l.enableSessionFlowControl || decide (1 ≤ l.remoteIncomingWindow))

/-- Computes `Math.ceil(a / b)` for natural `a` and positive natural `b`, as used
for `messageCount` in `_sendMessage`. -/
def jsCeilDiv (a b : Nat) : Nat :=
  (a + b - 1) / b

/-- The frame-construction tail of `_sendMessage` (part_005 lines 146-176).
`frameOverheadConst` stands for `TransferFrame.FRAME_OVERHEAD` (a constant
of `transfer_frame.js`, which is not part of the sources; every statement
below is parametric in it).  When the approximate frame size
`messageBuffer.length + frameOverhead` reaches `maxFrameSize` the message
is sliced into `Math.ceil(len / idealMessageSize)` frames, all built from
the same `transferOptions`; only `more` and the payload slice vary. -/
def mkTransferFrames (frameOverheadConst : Nat) (l : SenderLink)
    (messageId : Nat) (deliveryTag : List Nat) (messageBuffer : List Nat) :
    List TransferFrame :=
  let frameOverhead := frameOverheadConst + deliveryTag.length
  let idealMessageSize := l.maxFrameSize - frameOverhead
  if l.maxFrameSize ≤ messageBuffer.length + frameOverhead then
    let messageCount := jsCeilDiv messageBuffer.length idealMessageSize
    (List.range messageCount).map fun i =>
      { channel := l.channel
        handle := l.handle
        deliveryId := messageId
        deliveryTag := deliveryTag
        settled := l.senderSettled
        more := decide (i ≠ messageCount - 1)
        message := (messageBuffer.drop (i * idealMessageSize)).take idealMessageSize }
  else
    [{ channel := l.channel
       handle := l.handle
       deliveryId := messageId
       deliveryTag := deliveryTag
       settled := l.senderSettled
       more := false
       message := messageBuffer }]

/-- The two `OverCapacityError` throws of `_sendMessage`. -/
inductive SendError
  | overCapacityNoCredit
  | overCapacitySessionWindow
deriving DecidableEq, Repr

/-- Embeds `SenderLink.prototype._sendMessage` (part_005 lines 124-180).  Returns
the thrown error or the assigned `messageId` together with the emitted
transfer frames, and the state as left behind (JavaScript mutations made
before a `throw` persist: the strict-flow-control throw happens after
`nextOutgoingId++`, `remoteIncomingWindow--` and `outgoingWindow--`). -/
def SenderLink.sendMessage (frameOverheadConst : Nat) (l : SenderLink)
    (messageBuffer deliveryTag : List Nat) :
    Except SendError (Nat × List TransferFrame) × SenderLink :=
  if l.linkCredit ≤ 0 then
    (Except.error SendError.overCapacityNoCredit, l)
  else
    let messageId := l.nextOutgoingId
    let l1 := { l with
      nextOutgoingId := l.nextOutgoingId + 1
      remoteIncomingWindow := l.remoteIncomingWindow - 1
      outgoingWindow := l.outgoingWindow - 1 }
    if l1.remoteIncomingWindow < 0 then
      if l1.enableSessionFlowControl then
        (Except.error SendError.overCapacitySessionWindow, l1)
      else
        let l2 := { l1 with remoteIncomingWindow := 0, outgoingWindow := 0 }
        let frames := mkTransferFrames frameOverheadConst l2 messageId deliveryTag messageBuffer
        (Except.ok (messageId, frames), { l2 with linkCredit := l2.linkCredit - 1 })
    else
      let frames := mkTransferFrames frameOverheadConst l1 messageId deliveryTag messageBuffer
      (Except.ok (messageId, frames), { l1 with linkCredit := l1.linkCredit - 1 })

/-- The `policy.callback` values (`policies/policy_utilities.js`
`SenderCallbackPolicies`); `send` rejects on any other value. -/
inductive CallbackPolicy
  | onSettle
  | onSent
  | invalid
deriving DecidableEq, Repr

/-- What `SenderLink.prototype.send` does with the caller's promise and
message: queue the closure, leave the promise pending until a settling
disposition (`OnSettle`), resolve right away (`OnSent`), or reject. -/
inductive SendOutcome
  | queued
  | settledPending (messageId : Nat) (frames : List TransferFrame)
  | resolvedOnSent (frames : List TransferFrame)
  | rejectedError (e : SendError)
  | rejectedInvalidPolicy
deriving DecidableEq, Repr

/-- Byte content of `new Buffer(deliveryTag.toString())`: the ASCII
decimal digits of the counter. -/
def natTagBytes (n : Nat) : List Nat :=
  (Nat.toDigits 10 n).map Char.toNat

/-- Embeds `SenderLink.prototype.send` (part_005 lines 62-121), for a connected
session: take and bump the session `_deliveryTag`, then either append the
send closure to `_pendingSends` (when `canSend()` is false) or run
`_sendMessage` and apply the callback policy, registering the resolver in
`_unsettledSends[messageId]` under `OnSettle`. -/
def SenderLink.send (frameOverheadConst : Nat) (policy : CallbackPolicy)
    (l : SenderLink) (messageBuffer : List Nat) : SendOutcome × SenderLink :=
  let deliveryTag := natTagBytes l.deliveryTag
  let l0 := { l with deliveryTag := l.deliveryTag + 1 }
  if !l0.canSend then
    (SendOutcome.queued, { l0 with pendingSends := l0.pendingSends ++ [messageBuffer] })
  else
    match SenderLink.sendMessage frameOverheadConst l0 messageBuffer deliveryTag with
    | (Except.error e, l') => (SendOutcome.rejectedError e, l')
    | (Except.ok (messageId, frames), l') =>
      match policy with
      | CallbackPolicy.onSettle =>
          (SendOutcome.settledPending messageId frames,
            { l' with unsettledSends := l'.unsettledSends ++ [messageId] })
      | CallbackPolicy.onSent => (SendOutcome.resolvedOnSent frames, l')
      | CallbackPolicy.invalid => (SendOutcome.rejectedInvalidPolicy, l')

/-- Delivery states (`types/delivery_state.js`): `Rejected` carries an
error (modelled by an opaque code). -/
inductive DeliveryStateModel
  | accepted
  | released
  | modified
  | rejected (error : Nat)
deriving DecidableEq, Repr

/-- The fields of a disposition that `_dispositionReceived` reads.
`last = none` models both an absent and a `null` field; JavaScript treats
`0` as falsy, so `some 0` behaves like `none` in `details.last || first`. -/
structure DispositionDetails where
  settled : Bool
  state : Option DeliveryStateModel
  first : Nat
  last : Option Nat
deriving DecidableEq, Repr

/-- Embeds `var last = details.last || first` (part_005 line 229). -/
def dispositionRangeLast (d : DispositionDetails) : Nat :=
  match d.last with
  | none => d.first
  | some 0 => d.first
  | some l => l

/-- Whether delivery-id `i` falls in the `[first, last]` loop range of
`_dispositionReceived`. -/
def dispositionCovers (d : DispositionDetails) (i : Nat) : Bool :=
  decide (d.first ≤ i) && decide (i ≤ dispositionRangeLast d)

/-- The `err` passed to each fired resolver: the carried error when the
disposition state is `Rejected`, `null` otherwise (part_005 lines 223-226). -/
def rejectedErrorOf (s : Option DeliveryStateModel) : Option Nat :=
  match s with
  | some (DeliveryStateModel.rejected e) => some e
  | _ => none

/-- A resolver invocation `this._unsettledSends[messageId](err, details.state)`. -/
structure FiredResolver where
  messageId : Nat
  err : Option Nat
  state : Option DeliveryStateModel
deriving DecidableEq, Repr

/-- Embeds `SenderLink.prototype._dispositionReceived` (part_005 lines 218-238):
nothing happens unless `details.settled`; otherwise every registered
resolver with id in `[first, last]` is invoked with `(err, details.state)`
and deleted from `_unsettledSends`. -/
def SenderLink.dispositionReceived (l : SenderLink) (d : DispositionDetails) :
    List FiredResolver × SenderLink :=
  if !d.settled then
    ([], l)
  else
    let err := rejectedErrorOf d.state
    let first := d.first
    let last := dispositionRangeLast d
    let fired := (List.range' first (last + 1 - first)).filter
      (fun i => l.unsettledSends.contains i)
    let remaining := l.unsettledSends.filter
      (fun i => !(decide (first ≤ i) && decide (i ≤ last)))
    (fired.map fun i => { messageId := i, err := err, state := d.state },
      { l with unsettledSends := remaining })

/-- A sequence of dispositions processed in arrival order, collecting all
resolver invocations. -/
def SenderLink.processDispositions (l : SenderLink) (ds : List DispositionDetails) :
    List FiredResolver × SenderLink :=
  match ds with
  | [] => ([], l)
  | d :: rest =>
    let step := l.dispositionReceived d
    let recur := step.2.processDispositions rest
    (step.1 ++ recur.1, recur.2)

/-- Options handed to the `DispositionFrame` constructor
(`disposition_frame.js` lines 83-97); `none` models an absent key. `role`
and `first` are asserted present by `u.assertArguments`. -/
structure DispositionFrameOptions where
  channel : Option Nat
  role : Bool
  first : Nat
  last : Option Nat
  settled : Option Bool
  state : Option DeliveryStateModel
  batchable : Option Bool
deriving DecidableEq, Repr

/-- A constructed `DispositionFrame` after `u.defaults` filled the missing
fields. -/
structure DispositionFrameModel where
  channel : Nat
  role : Bool
  first : Nat
  last : Nat
  settled : Bool
  state : Option DeliveryStateModel
  batchable : Bool
deriving DecidableEq, Repr

/-- The `DispositionFrame(options)` constructor for plain options:
`AMQPFrame` sets `channel = options.channel || 0`, and
`u.defaults(this, options, { last: 0, settled: false, state: null,
batchable: false })` fills the absent fields. -/
def mkDispositionFrame (options : DispositionFrameOptions) : DispositionFrameModel :=
  { channel := options.channel.getD 0
    role := options.role
    first := options.first
    last := options.last.getD 0
    settled := options.settled.getD false
    state := options.state
    batchable := options.batchable.getD false }

/-- Events observable on a `Connection`: the `ErrorReceived` /
`Disconnected` emits, and a `console.warn` line (which is a log write,
not an emitted event). -/
inductive ConnectionEvent
  | errorReceived (message : String)
  | disconnected
  | consoleWarn (message : String)
deriving DecidableEq, Repr

/-- Whether an observable connection event is an `ErrorReceived` emit. -/
def isErrorReceivedEvent : ConnectionEvent → Bool
  | ConnectionEvent.errorReceived _ => true
  | _ => false

/-- Outcome of `FrameReader.read` on the inbound buffer: a complete frame
(identified opaquely), not enough bytes yet (`undefined`), or a thrown
codec/frame error such as `MalformedPayloadError` carrying its message. -/
inductive FrameReadOutcome
  | frame (frameId : Nat)
  | incomplete
  | readError (message : String)
deriving DecidableEq, Repr

/-- Result of `Connection.prototype._tryReceiveFrame`: the value returned
to `_receiveAny`, the events produced while handling the read, and
whether the handler initiated a connection close. -/
structure TryReceiveFrameResult where
  frame : Option Nat
  events : List ConnectionEvent
  closesConnection : Bool
deriving DecidableEq, Repr

/-- Embeds `Connection.prototype._tryReceiveFrame` (connection.js lines 407-420):
`FrameReader.read` runs inside `try`; a thrown error is caught and only
`console.warn(e.message)` runs — the function then returns `undefined`
without closing the connection or emitting any event. -/
def tryReceiveFrame (r : FrameReadOutcome) : TryReceiveFrameResult :=
  match r with
  | FrameReadOutcome.frame f =>
      { frame := some f, events := [], closesConnection := false }
  | FrameReadOutcome.incomplete =>
      { frame := none, events := [], closesConnection := false }
  | FrameReadOutcome.readError m =>
      { frame := none, events := [ConnectionEvent.consoleWarn m], closesConnection := false }

/-- Modelled from the spec: `constants.js` is not among the sources; §4.2
fixes `MIN_MAX_FRAME_SIZE = 512` (the AMQP spec minimum). -/
def minMaxFrameSize : Nat := 512

/-- Modelled from the spec: `constants.js` is not among the sources; §4.2
fixes `DEFAULT_MAX_FRAME_SIZE = 4294967295`. -/
def defaultMaxFrameSize : Nat := 4294967295

/-- Embeds `frame.maxFrameSize || constants.defaultMaxFrameSize` in
`_processOpenFrame`: an absent field and the falsy value `0` both fall
back to the default. -/
def peerMaxFrameSize (peer : Option Nat) : Nat :=
  match peer with
  | none => defaultMaxFrameSize
  | some 0 => defaultMaxFrameSize
  | some v => v

/-- The `maxFrameSize` negotiation of `Connection.prototype._processOpenFrame`
(connection.js lines 468-471): first clamp the local parameter down to the
peer's advertised value, then clamp the result up to the AMQP minimum. -/
def negotiateMaxFrameSize (localParams : Nat) (peer : Option Nat) : Nat :=
  let afterMin := min localParams (peerMaxFrameSize peer)
  max afterMin minMaxFrameSize

/-- The shapes a JavaScript value can take for `Codec.prototype.encode`:
`null`, booleans, strings, numbers with zero fractional part
(`value % 1 === 0`), numbers with a fractional part, and objects
(dispatched to `_encodeObject`, which no claim here touches). -/
inductive JSValue
  | jsNull
  | jsBool (b : Bool)
  | jsString (s : String)
  | jsWholeNumber (i : Int)
  | jsFractionalNumber
  | jsObject
deriving DecidableEq, Repr

/-- Modelled from the spec: the encoder table `types.js` is not among the
sources, so its keys are taken from §3's Value categories plus the compact
numeric encodings §4.1 names (`smallint` etc.); `codec.js` only consults
membership via `types.hasOwnProperty`. -/
def knownTypeNames : List String :=
  ["null", "boolean", "true", "false",
   "ubyte", "byte", "ushort", "short", "uint", "smalluint", "uint0",
   "int", "smallint", "ulong", "smallulong", "ulong0", "long", "smalllong",
   "float", "double", "decimal32", "decimal64", "decimal128",
   "char", "timestamp", "uuid", "binary", "string", "symbol",
   "list", "map", "array"]

/-- How `Codec.prototype.encode` disposes of a value: which encoder from
the `types` table runs, or which error is thrown. -/
inductive EncodeOutcome
  | usesEncoder (name : String)
  | encodingError (forced : String)
  | notImplementedError (what : String)
deriving DecidableEq, Repr

/-- The unforced `switch (typeof value)` of `Codec.prototype.encode`
(codec.js lines 182-204): booleans, strings, then numbers — a whole
number picks `int` when `Math.abs(value) < 0x7FFFFFFF` and `long`
otherwise, any other number picks `double`, each guarded by a
`types.hasOwnProperty` check. -/
def codecChooseEncoderUnforced (value : JSValue) : EncodeOutcome :=
  match value with
  | JSValue.jsNull => EncodeOutcome.usesEncoder "null"
  | JSValue.jsBool _ => EncodeOutcome.usesEncoder "boolean"
  | JSValue.jsString _ => EncodeOutcome.usesEncoder "string"
  | JSValue.jsWholeNumber i =>
      let typeName := if i.natAbs < 0x7FFFFFFF then "int" else "long"
      if knownTypeNames.contains typeName then EncodeOutcome.usesEncoder typeName
      else EncodeOutcome.notImplementedError typeName
  | JSValue.jsFractionalNumber =>
      if knownTypeNames.contains "double" then EncodeOutcome.usesEncoder "double"
      else EncodeOutcome.notImplementedError "double"
  | JSValue.jsObject => EncodeOutcome.usesEncoder "object-dispatch"

/-- Embeds `Codec.prototype.encode(value, buffer, forceType)` (codec.js lines
164-204): `null` is special-cased before everything else; then a truthy
`forceType` (absent and the empty string are falsy) selects the named
encoder when `types` has it and throws `EncodingError` otherwise; with no
forced type the `typeof` switch runs. -/
def codecChooseEncoder (value : JSValue) (forceType : Option String) : EncodeOutcome :=
  match value with
  | JSValue.jsNull => EncodeOutcome.usesEncoder "null"
  | v =>
    match forceType with
    | some ft =>
      if ft = "" then codecChooseEncoderUnforced v
      else if knownTypeNames.contains ft then EncodeOutcome.usesEncoder ft
      else EncodeOutcome.encodingError ft
    | none => codecChooseEncoderUnforced v

/-- The connection state machine states (`connSM` table in the
`Connection` constructor, connection.js). -/
inductive ConnState
  | cDisconnected
  | cStart
  | cInSasl
  | cHdrRcvd
  | cHdrSent
  | cHdrExch
  | cOpenRcvd
  | cOpenSent
  | cOpened
  | cCloseRcvd
  | cCloseSent
  | cDisconnecting
deriving DecidableEq, Repr

/-- The events the `connSM` table reacts to.  `connected` carries whether
a SASL layer was requested.  `errorEv` and `terminatedEv` are the handlers
installed on every state except `DISCONNECTED`. -/
inductive ConnSMEvent
  | connect
  | connected (sasl : Bool)
  | headerReceived
  | validVersion
  | invalidVersion
  | sendOpen
  | openReceived
  | sendClose
  | closeReceived
  | invalidOptions
  | success
  | disconnect
  | disconnectedEv
  | errorEv
  | terminatedEv
deriving DecidableEq, Repr

/-- The transition table of `connSM` (connection.js `stateMachine` plus
the loop that installs `error` and `terminated` on every state other than
`DISCONNECTED`).  `none` means the state has no handler for the event
(stately.js then leaves the state unchanged). -/
def connTransition (s : ConnState) (e : ConnSMEvent) : Option ConnState :=
  match s, e with
  | ConnState.cDisconnected, ConnSMEvent.connect => some ConnState.cStart
  | ConnState.cDisconnected, _ => none
  | _, ConnSMEvent.errorEv => some ConnState.cDisconnected
  | _, ConnSMEvent.terminatedEv => some ConnState.cDisconnected
  | ConnState.cStart, ConnSMEvent.connected sasl =>
      some (if sasl then ConnState.cInSasl else ConnState.cHdrSent)
  | ConnState.cStart, ConnSMEvent.headerReceived => some ConnState.cHdrRcvd
  | ConnState.cInSasl, ConnSMEvent.success => some ConnState.cHdrSent
  | ConnState.cHdrRcvd, ConnSMEvent.validVersion => some ConnState.cHdrExch
  | ConnState.cHdrRcvd, ConnSMEvent.invalidVersion => some ConnState.cDisconnecting
  | ConnState.cHdrSent, ConnSMEvent.validVersion => some ConnState.cHdrExch
  | ConnState.cHdrSent, ConnSMEvent.invalidVersion => some ConnState.cDisconnecting
  | ConnState.cHdrExch, ConnSMEvent.sendOpen => some ConnState.cOpenSent
  | ConnState.cHdrExch, ConnSMEvent.openReceived => some ConnState.cOpenRcvd
  | ConnState.cOpenRcvd, ConnSMEvent.sendOpen => some ConnState.cOpened
  | ConnState.cOpenSent, ConnSMEvent.openReceived => some ConnState.cOpened
  | ConnState.cOpenSent, ConnSMEvent.sendClose => some ConnState.cDisconnected
  | ConnState.cOpened, ConnSMEvent.closeReceived => some ConnState.cCloseRcvd
  | ConnState.cOpened, ConnSMEvent.invalidOptions => some ConnState.cCloseSent
  | ConnState.cOpened, ConnSMEvent.sendClose => some ConnState.cCloseSent
  | ConnState.cCloseRcvd, ConnSMEvent.sendClose => some ConnState.cDisconnected
  | ConnState.cCloseSent, ConnSMEvent.closeReceived => some ConnState.cDisconnected
  | ConnState.cCloseSent, ConnSMEvent.disconnect => some ConnState.cDisconnected
  | ConnState.cDisconnecting, ConnSMEvent.disconnectedEv => some ConnState.cDisconnected
  | _, _ => none

/-- One state-machine step: apply the handler if the state has one,
otherwise stay. -/
def connStep (s : ConnState) (e : ConnSMEvent) : ConnState :=
  (connTransition s e).getD s

/-- Modelled from the spec: `constants.js` is not among the sources; §6
gives the AMQP protocol header as `"AMQP"` + protocol-id 0 + version
1.0.0. -/
def amqpVersionHeader : List Nat := [65, 77, 81, 80, 0, 1, 0, 0]

/-- Modelled from the spec: §4.4/§6 give the SASL protocol header as
`"AMQP"` + protocol-id 3 + version 1.0.0. -/
def saslVersionHeader : List Nat := [65, 77, 81, 80, 3, 1, 0, 0]

/-- Lower-case hex digit, as produced by `Buffer.toString('hex')`. -/
def hexDigitChar (n : Nat) : Char :=
  if n < 10 then Char.ofNat (48 + n) else Char.ofNat (87 + n)

/-- Computes `Buffer.toString('hex')` of a byte list: two lower-case hex digits per
byte. -/
def bytesToHexString (bs : List Nat) : String :=
  ⟨(bs.map (fun b => [hexDigitChar (b / 16 % 16), hexDigitChar (b % 16)])).flatten⟩

/-- The connection fields `_tryReceiveHeader` reads and writes: machine
state, `_receivedHeader` and the inbound `_buffer`. -/
structure HeaderConn where
  state : ConnState
  receivedHeader : Bool
  buffer : List Nat
deriving DecidableEq, Repr

/-- Embeds `Connection.prototype._tryReceiveHeader` (connection.js lines 374-405)
on the non-SASL path: with at least 8 buffered bytes, consume them; a
match against the AMQP header runs `validVersion` then `sendOpen`;
otherwise the connection emits one `ErrorReceived` (a `VersionError`
whose message starts with `Invalid AMQP version received: `, or
`Credentials Expected - SASL version received: ` when the peer sent the
SASL header) and runs `invalidVersion`, whose `_terminate()` emits
`Disconnected`. -/
def tryReceiveHeader (c : HeaderConn) : HeaderConn × List ConnectionEvent :=
  if 8 ≤ c.buffer.length then
    let serverVersion := c.buffer.take 8
    let rest := c.buffer.drop 8
    let s1 := if c.state = ConnState.cStart then connStep c.state ConnSMEvent.headerReceived
      else c.state
    if serverVersion = amqpVersionHeader then
      let s2 := connStep s1 ConnSMEvent.validVersion
      let s3 := connStep s2 ConnSMEvent.sendOpen
      ({ state := s3, receivedHeader := true, buffer := rest }, [])
    else
      let msg :=
        (if serverVersion = saslVersionHeader then
          "Credentials Expected - SASL version received: "
        else
          "Invalid AMQP version received: ") ++ bytesToHexString serverVersion
      let s2 := connStep s1 ConnSMEvent.invalidVersion
      ({ state := s2, receivedHeader := true, buffer := rest },
        [ConnectionEvent.errorReceived msg, ConnectionEvent.disconnected])
  else
    (c, [])

/-- The run of claim scenario F (test `should error when header received
is invalid`, part_006): open the connection without SASL — `connect` then
`connected` (which sends our header) — feed the peer's first 8 bytes to
`_tryReceiveHeader`, then the transport `end` event fires `terminated`,
whose `_terminate()` emits a second `Disconnected`.  Returns the state
trace and the emitted events. -/
def invalidHeaderScenario (peerHeader : List Nat) : List ConnState × List ConnectionEvent :=
  let s0 := ConnState.cDisconnected
  let s1 := connStep s0 ConnSMEvent.connect
  let s2 := connStep s1 (ConnSMEvent.connected false)
  let afterHeader := tryReceiveHeader { state := s2, receivedHeader := false, buffer := peerHeader }
  let s4 := connStep afterHeader.1.state ConnSMEvent.terminatedEv
  ([s0, s1, s2, afterHeader.1.state, s4],
    afterHeader.2 ++ [ConnectionEvent.disconnected])

/-! Shared lemmas about the embedded operations. -/

/-- Unfolding of `canSend` into its three conditions. -/
theorem canSend_eq_true_iff (l : SenderLink) :
    l.canSend = true ↔
      (l.linkState = LinkState.attached ∧ 1 ≤ l.linkCredit ∧
        (l.enableSessionFlowControl = true → 1 ≤ l.remoteIncomingWindow)) := by
  unfold SenderLink.canSend
  by_cases h : l.linkState = LinkState.attached
  · cases he : l.enableSessionFlowControl <;> simp [h, he]
  · simp [h]

/-- When `canSend()` holds, `_sendMessage` reaches neither
`OverCapacityError` throw and returns the pre-increment
`nextOutgoingId`. -/
theorem sendMessage_ok_of_canSend (fo : Nat) (l : SenderLink) (mb dt : List Nat)
    (h : l.canSend = true) :
    ∃ frames l', SenderLink.sendMessage fo l mb dt =
      (Except.ok (l.nextOutgoingId, frames), l') := by
  rcases (canSend_eq_true_iff l).1 h with ⟨-, hc, hw⟩
  have hc' : ¬ l.linkCredit ≤ 0 := by omega
  by_cases hwin : l.remoteIncomingWindow - 1 < 0
  · have hesfc : l.enableSessionFlowControl = false := by
      cases he : l.enableSessionFlowControl
      · rfl
      · exact absurd (hw he) (by omega)
    refine ⟨mkTransferFrames fo
        { l with nextOutgoingId := l.nextOutgoingId + 1,
                 remoteIncomingWindow := 0, outgoingWindow := 0 }
        l.nextOutgoingId dt mb,
      { l with nextOutgoingId := l.nextOutgoingId + 1,
               remoteIncomingWindow := 0, outgoingWindow := 0,
               linkCredit := l.linkCredit - 1 }, ?_⟩
    simp [SenderLink.sendMessage, hc', hwin, hesfc]
  · refine ⟨mkTransferFrames fo
        { l with nextOutgoingId := l.nextOutgoingId + 1,
                 remoteIncomingWindow := l.remoteIncomingWindow - 1,
                 outgoingWindow := l.outgoingWindow - 1 }
        l.nextOutgoingId dt mb,
      { l with nextOutgoingId := l.nextOutgoingId + 1,
               remoteIncomingWindow := l.remoteIncomingWindow - 1,
               outgoingWindow := l.outgoingWindow - 1,
               linkCredit := l.linkCredit - 1 }, ?_⟩
    simp [SenderLink.sendMessage, hc', hwin]

/-- A sender link with one link credit, strict session flow control and an
exhausted session window, about to call `_sendMessage`. -/
def strictWindowExhaustedLink : SenderLink :=
  { linkState := LinkState.attached
    linkCredit := 1
    enableSessionFlowControl := true
    nextOutgoingId := 1
    remoteIncomingWindow := 0
    outgoingWindow := 5
    senderSettled := true
    maxFrameSize := 512
    channel := 1
    handle := 0
    deliveryTag := 1
    pendingSends := []
    unsettledSends := [] }

/-- C1, counterexample.  The claim says `remoteIncomingWindow` is never
observable as negative, in particular not after the
strict-session-flow-control error path.  But `_sendMessage` decrements the
session counters before checking them and throws without restoring them:
called with `remoteIncomingWindow = 0` under strict session flow control
it throws `OverCapacityError` and leaves `remoteIncomingWindow` at `-1`. -/
theorem sendMessage_strict_window_counterexample :
    (SenderLink.sendMessage 29 strictWindowExhaustedLink [48] [49]).1 =
      Except.error SendError.overCapacitySessionWindow ∧
    (SenderLink.sendMessage 29 strictWindowExhaustedLink [48] [49]).2.remoteIncomingWindow
      = -1 ∧
    (SenderLink.sendMessage 29 strictWindowExhaustedLink [48] [49]).2.remoteIncomingWindow
      < 0 := by
  refine ⟨rfl, rfl, ?_⟩
  decide

/-- C1, amended.  `linkCredit` indeed never becomes negative, and with
session flow control disabled `remoteIncomingWindow` is clamped and never
leaves `_sendMessage` negative; under strict session flow control no
transfer is emitted when the decrement would drive the window below zero
(the `OverCapacityError` is thrown instead), but `remoteIncomingWindow`
itself is left at its decremented, negative value after that error path. -/
theorem sendMessage_window_accounting (fo : Nat) (l : SenderLink) (mb dt : List Nat)
    (hcredit : 0 ≤ l.linkCredit) :
    (0 ≤ (SenderLink.sendMessage fo l mb dt).2.linkCredit) ∧
    (l.enableSessionFlowControl = false → 0 ≤ l.remoteIncomingWindow →
      0 ≤ (SenderLink.sendMessage fo l mb dt).2.remoteIncomingWindow) ∧
    (l.enableSessionFlowControl = true → l.remoteIncomingWindow ≤ 0 →
      1 ≤ l.linkCredit →
      (SenderLink.sendMessage fo l mb dt).1 =
        Except.error SendError.overCapacitySessionWindow ∧
      (SenderLink.sendMessage fo l mb dt).2.remoteIncomingWindow =
        l.remoteIncomingWindow - 1) ∧
    (l.enableSessionFlowControl = true → 1 ≤ l.remoteIncomingWindow →
      1 ≤ l.linkCredit →
      (∃ frames, (SenderLink.sendMessage fo l mb dt).1 =
        Except.ok (l.nextOutgoingId, frames)) ∧
      (SenderLink.sendMessage fo l mb dt).2.remoteIncomingWindow =
        l.remoteIncomingWindow - 1 ∧
      0 ≤ (SenderLink.sendMessage fo l mb dt).2.remoteIncomingWindow) := by
  by_cases h0 : l.linkCredit ≤ 0
  · refine ⟨?_, ?_, ?_, ?_⟩ <;>
      simp [SenderLink.sendMessage, h0] <;> omega
  · by_cases hwin : l.remoteIncomingWindow - 1 < 0
    · cases he : l.enableSessionFlowControl
      · refine ⟨?_, ?_, ?_, ?_⟩ <;>
          simp [SenderLink.sendMessage, h0, hwin, he] <;> omega
      · refine ⟨?_, ?_, ?_, ?_⟩ <;>
          simp [SenderLink.sendMessage, h0, hwin, he] <;> omega
    · refine ⟨?_, ?_, ?_, ?_⟩ <;>
        simp [SenderLink.sendMessage, h0, hwin] <;> omega

/-- C1, witness for the amended theorem at a link with two credits, a
session window of three, and strict session flow control. -/
theorem sendMessage_window_accounting_witness :
    (0 ≤ (SenderLink.sendMessage 29
      { strictWindowExhaustedLink with linkCredit := 2, remoteIncomingWindow := 3 }
      [48] [49]).2.linkCredit) ∧
    ((∃ frames, (SenderLink.sendMessage 29
      { strictWindowExhaustedLink with linkCredit := 2, remoteIncomingWindow := 3 }
      [48] [49]).1 = Except.ok (1, frames)) ∧
      (SenderLink.sendMessage 29
        { strictWindowExhaustedLink with linkCredit := 2, remoteIncomingWindow := 3 }
        [48] [49]).2.remoteIncomingWindow = 3 - 1 ∧
      0 ≤ (SenderLink.sendMessage 29
        { strictWindowExhaustedLink with linkCredit := 2, remoteIncomingWindow := 3 }
        [48] [49]).2.remoteIncomingWindow) :=
  ⟨(sendMessage_window_accounting 29
      { strictWindowExhaustedLink with linkCredit := 2, remoteIncomingWindow := 3 }
      [48] [49] (by decide)).1,
   (sendMessage_window_accounting 29
      { strictWindowExhaustedLink with linkCredit := 2, remoteIncomingWindow := 3 }
      [48] [49] (by decide)).2.2.2 rfl (by decide) (by decide)⟩

/-- C9.  If `_sendMessage` is entered in a state where `canSend()` has
just returned `true` — which is how both `send` and
`_dispatchPendingSends` invoke it — then neither `OverCapacityError`
branch is reachable: the call returns normally with the assigned
message id. -/
theorem sendMessage_no_throw_of_canSend (fo : Nat) (l : SenderLink) (mb dt : List Nat)
    (h : l.canSend = true) :
    (∀ e, (SenderLink.sendMessage fo l mb dt).1 ≠ Except.error e) ∧
    (∃ frames, (SenderLink.sendMessage fo l mb dt).1 =
      Except.ok (l.nextOutgoingId, frames)) := by
  obtain ⟨frames, l', heq⟩ := sendMessage_ok_of_canSend fo l mb dt h
  refine ⟨?_, frames, ?_⟩
  · intro e hcontra
    rw [heq] at hcontra
    simp at hcontra
  · rw [heq]

/-- C9, witness at an attached link with one credit and window one. -/
theorem sendMessage_no_throw_of_canSend_witness :
    (∀ e, (SenderLink.sendMessage 29
      { strictWindowExhaustedLink with remoteIncomingWindow := 1 } [48] [49]).1 ≠
        Except.error e) ∧
    (∃ frames, (SenderLink.sendMessage 29
      { strictWindowExhaustedLink with remoteIncomingWindow := 1 } [48] [49]).1 =
        Except.ok (1, frames)) :=
  sendMessage_no_throw_of_canSend 29
    { strictWindowExhaustedLink with remoteIncomingWindow := 1 } [48] [49] (by decide)

/-- C6.  `canSend()` is `true` exactly when the link is attached, has at
least one link credit and — when session flow control is enabled — at
least one unit of `remoteIncomingWindow`; and whenever `send` runs while
`canSend()` is `false`, the message closure is appended to
`_pendingSends` and nothing is transmitted. -/
theorem canSend_spec_and_send_queues (fo : Nat) (p : CallbackPolicy)
    (l : SenderLink) (mb : List Nat) :
    (l.canSend = true ↔
      (l.linkState = LinkState.attached ∧ 1 ≤ l.linkCredit ∧
        (l.enableSessionFlowControl = true → 1 ≤ l.remoteIncomingWindow))) ∧
    (l.canSend = false →
      SenderLink.send fo p l mb =
        (SendOutcome.queued,
          { l with deliveryTag := l.deliveryTag + 1,
                   pendingSends := l.pendingSends ++ [mb] })) := by
  refine ⟨canSend_eq_true_iff l, ?_⟩
  intro hfalse
  have h0 : ({ l with deliveryTag := l.deliveryTag + 1 } : SenderLink).canSend = false := by
    simpa [SenderLink.canSend] using hfalse
  simp [SenderLink.send, h0]

/-- C6, witness at a detached link. -/
theorem canSend_spec_and_send_queues_witness :
    (({ strictWindowExhaustedLink with linkState := LinkState.detached } : SenderLink).canSend
        = true ↔
      (({ strictWindowExhaustedLink with linkState := LinkState.detached } : SenderLink).linkState
          = LinkState.attached ∧
        1 ≤ ({ strictWindowExhaustedLink with linkState := LinkState.detached } : SenderLink).linkCredit ∧
        (({ strictWindowExhaustedLink with linkState := LinkState.detached } : SenderLink).enableSessionFlowControl = true →
          1 ≤ ({ strictWindowExhaustedLink with linkState := LinkState.detached } : SenderLink).remoteIncomingWindow))) ∧
    SenderLink.send 29 CallbackPolicy.onSettle
        { strictWindowExhaustedLink with linkState := LinkState.detached } [48] =
      (SendOutcome.queued,
        { strictWindowExhaustedLink with
            linkState := LinkState.detached
            deliveryTag := 2
            pendingSends := [[48]] }) := by
  refine ⟨(canSend_spec_and_send_queues 29 CallbackPolicy.onSettle
    { strictWindowExhaustedLink with linkState := LinkState.detached } [48]).1, ?_⟩
  have := (canSend_spec_and_send_queues 29 CallbackPolicy.onSettle
    { strictWindowExhaustedLink with linkState := LinkState.detached } [48]).2 (by decide)
  simpa using this

/-- C4, counterexample.  The claim says a codec/frame error on the
inbound buffer closes the connection with a framing-error and surfaces
the error through `ErrorReceived`.  But `_tryReceiveFrame` catches the
thrown error and only runs `console.warn(e.message)`: at a concrete
`MalformedPayloadError` it emits no `ErrorReceived`, initiates no close,
and returns `undefined`. -/
theorem tryReceiveFrame_swallows_counterexample :
    (tryReceiveFrame (FrameReadOutcome.readError "Unknown code prefix: 0x30")).closesConnection
      = false ∧
    (tryReceiveFrame
        (FrameReadOutcome.readError "Unknown code prefix: 0x30")).events.all
      (fun e => !isErrorReceivedEvent e) = true ∧
    (tryReceiveFrame (FrameReadOutcome.readError "Unknown code prefix: 0x30")).frame
      = none :=
  ⟨rfl, rfl, rfl⟩

/-- C4, amended.  Whatever `FrameReader.read` does, `_tryReceiveFrame`
never emits an `ErrorReceived` and never initiates a connection close; a
successful read returns the frame, and a thrown codec/frame error is
swallowed after a single `console.warn` of its message. -/
theorem tryReceiveFrame_never_surfaces (r : FrameReadOutcome) :
    (tryReceiveFrame r).closesConnection = false ∧
    (tryReceiveFrame r).events.all (fun e => !isErrorReceivedEvent e) = true ∧
    (tryReceiveFrame r).events =
      (match r with
        | FrameReadOutcome.readError m => [ConnectionEvent.consoleWarn m]
        | _ => []) ∧
    (tryReceiveFrame r).frame =
      (match r with
        | FrameReadOutcome.frame f => some f
        | _ => none) := by
  cases r <;> simp [tryReceiveFrame, isErrorReceivedEvent]

/-- C5, counterexample.  The claim says the negotiated `maxFrameSize`
equals the minimum of the locally advertised and peer-advertised values
for every pair, including a peer value below 512.  With local 65536 and
peer 100 the code clamps the minimum (100) up to 512, so the negotiated
value differs from the minimum. -/
theorem negotiateMaxFrameSize_counterexample :
    negotiateMaxFrameSize 65536 (some 100) = 512 ∧
    min 65536 (peerMaxFrameSize (some 100)) = 100 ∧
    negotiateMaxFrameSize 65536 (some 100) ≠
      min 65536 (peerMaxFrameSize (some 100)) := by
  refine ⟨rfl, rfl, ?_⟩
  decide

/-- C5, amended.  The negotiated `maxFrameSize` is the minimum of the
locally advertised value and the peer-advertised value (an absent or zero
peer value counting as the default) whenever that minimum is at least
512, is clamped up to 512 otherwise, and is always at least 512. -/
theorem negotiateMaxFrameSize_spec (localParams : Nat) (peer : Option Nat) :
    negotiateMaxFrameSize localParams peer =
      (if 512 ≤ min localParams (peerMaxFrameSize peer) then
        min localParams (peerMaxFrameSize peer)
      else 512) ∧
    512 ≤ negotiateMaxFrameSize localParams peer := by
  unfold negotiateMaxFrameSize minMaxFrameSize
  constructor
  · by_cases h : 512 ≤ min localParams (peerMaxFrameSize peer) <;> simp [h] <;> omega
  · simp

/-- C7, counterexample.  The claim says a supplied forced type is used
regardless of the value's shape and an unknown forced type raises
`EncodingError`.  But `encode` special-cases `null` before looking at
`forceType`: `encode(null, buf, 'bogus')` uses the `null` encoder and
raises nothing, and `encode(null, buf, 'int')` ignores the forced `int`
encoder. -/
theorem codecChooseEncoder_null_counterexample :
    codecChooseEncoder JSValue.jsNull (some "bogus") = EncodeOutcome.usesEncoder "null" ∧
    codecChooseEncoder JSValue.jsNull (some "bogus") ≠ EncodeOutcome.encodingError "bogus" ∧
    codecChooseEncoder JSValue.jsNull (some "int") ≠ EncodeOutcome.usesEncoder "int" := by
  refine ⟨rfl, ?_, ?_⟩ <;> decide

/-- C7, amended.  With no forced type, a whole number picks the `int`
encoder when its magnitude is below `0x7FFFFFFF` and `long` otherwise,
and a non-integer number picks `double`; a non-null value with a truthy
forced type uses exactly the named encoder when the `types` table has it
and raises `EncodingError` otherwise; `null` values always use the `null`
encoder, ignoring any forced type. -/
theorem codecChooseEncoder_spec (i : Int) (v : JSValue) (ft : String) :
    (codecChooseEncoder (JSValue.jsWholeNumber i) none =
      EncodeOutcome.usesEncoder (if i.natAbs < 0x7FFFFFFF then "int" else "long")) ∧
    (codecChooseEncoder JSValue.jsFractionalNumber none =
      EncodeOutcome.usesEncoder "double") ∧
    (codecChooseEncoder JSValue.jsNull (some ft) = EncodeOutcome.usesEncoder "null") ∧
    (v ≠ JSValue.jsNull → ft ≠ "" → knownTypeNames.contains ft = true →
      codecChooseEncoder v (some ft) = EncodeOutcome.usesEncoder ft) ∧
    (v ≠ JSValue.jsNull → ft ≠ "" → knownTypeNames.contains ft = false →
      codecChooseEncoder v (some ft) = EncodeOutcome.encodingError ft) := by
  refine ⟨?_, rfl, rfl, ?_, ?_⟩
  · by_cases h : i.natAbs < 0x7FFFFFFF <;>
      simp [codecChooseEncoder, codecChooseEncoderUnforced, h, knownTypeNames]
  · intro hv hft hk
    cases v <;> simp_all [codecChooseEncoder]
  · intro hv hft hk
    cases v <;> simp_all [codecChooseEncoder]

/-- C7, witness: a boolean forced to `long` uses the `long` encoder, and
the whole number 5 with no forced type picks by magnitude. -/
theorem codecChooseEncoder_spec_witness :
    codecChooseEncoder (JSValue.jsBool true) (some "long") =
      EncodeOutcome.usesEncoder "long" ∧
    codecChooseEncoder (JSValue.jsWholeNumber 5) none =
      EncodeOutcome.usesEncoder
        (if (5 : Int).natAbs < 0x7FFFFFFF then "int" else "long") :=
  ⟨(codecChooseEncoder_spec 5 (JSValue.jsBool true) "long").2.2.2.1
      (by decide) (by decide) (by decide),
   (codecChooseEncoder_spec 5 (JSValue.jsBool true) "long").1⟩

/-- C10.  A disposition whose `last` is absent, `null` or `0` covers only
the single delivery-id `first`: the effective upper bound is `first`, the
covered range collapses to `{first}`, and the sender fires (at most) the
single resolver registered under `first`; and a `DispositionFrame` built
from options without `last` defaults that field to `0`, not to `first`. -/
theorem disposition_singleton_range (d : DispositionDetails)
    (o : DispositionFrameOptions) (i : Nat) (l : SenderLink)
    (hd : d.last = none ∨ d.last = some 0) (ho : o.last = none) :
    dispositionRangeLast d = d.first ∧
    (dispositionCovers d i = true ↔ i = d.first) ∧
    ((SenderLink.dispositionReceived l d).1.map FiredResolver.messageId =
      if d.settled = true ∧ l.unsettledSends.contains d.first = true
      then [d.first] else []) ∧
    (mkDispositionFrame o).last = 0 := by
  have hlast : dispositionRangeLast d = d.first := by
    rcases hd with h | h <;> simp [dispositionRangeLast, h]
  refine ⟨hlast, ?_, ?_, ?_⟩
  · simp [dispositionCovers, hlast]
    omega
  · unfold SenderLink.dispositionReceived
    cases hs : d.settled
    · simp
    · simp only [hs, Bool.not_true, Bool.false_eq_true, if_false, hlast]
      have hrange : d.first + 1 - d.first = 1 := by omega
      rw [hrange, List.range'_one]
      by_cases hm : d.first ∈ l.unsettledSends <;>
        simp [List.contains, List.elem_eq_mem, hm, hs]
  · simp [mkDispositionFrame, ho]

/-- C10, witness at a settled accepted disposition for delivery-id 3 with
`last = null`, a sender with id 3 unsettled, and frame options without
`last`. -/
theorem disposition_singleton_range_witness :
    dispositionRangeLast
        { settled := true, state := some DeliveryStateModel.accepted,
          first := 3, last := none } = 3 ∧
    (dispositionCovers
        { settled := true, state := some DeliveryStateModel.accepted,
          first := 3, last := none } 3 = true ↔ (3 : Nat) = 3) ∧
    ((SenderLink.dispositionReceived
        { strictWindowExhaustedLink with unsettledSends := [3] }
        { settled := true, state := some DeliveryStateModel.accepted,
          first := 3, last := none }).1.map FiredResolver.messageId =
      if ({ settled := true, state := some DeliveryStateModel.accepted,
            first := 3, last := none } : DispositionDetails).settled = true ∧
        ({ strictWindowExhaustedLink with
            unsettledSends := [3] } : SenderLink).unsettledSends.contains 3 = true
      then [3] else []) ∧
    (mkDispositionFrame
        { channel := some 1, role := true, first := 3, last := none,
          settled := some true, state := some DeliveryStateModel.accepted,
          batchable := none }).last = 0 :=
  disposition_singleton_range
    { settled := true, state := some DeliveryStateModel.accepted,
      first := 3, last := none }
    { channel := some 1, role := true, first := 3, last := none,
      settled := some true, state := some DeliveryStateModel.accepted,
      batchable := none }
    3 { strictWindowExhaustedLink with unsettledSends := [3] }
    (Or.inl rfl) rfl

/-- Concatenating the `n` successive width-`w` slices of a buffer yields
its first `n * w` bytes. -/
theorem chunk_map_flatten (w : Nat) (mb : List Nat) (n : Nat) :
    ((List.range n).map (fun i => (mb.drop (i * w)).take w)).flatten = mb.take (n * w) := by
  induction n with
  | zero => simp
  | succ n ih =>
      rw [List.range_succ, List.map_append, List.flatten_append]
      simp only [List.map_cons, List.map_nil, List.flatten_cons, List.flatten_nil,
        List.append_nil, ih]
      rw [Nat.succ_mul, List.take_add]

/-- The quantity `Math.ceil(a / w) * w` covers `a` whole bytes. -/
theorem le_jsCeilDiv_mul (a w : Nat) (hw : 0 < w) : a ≤ jsCeilDiv a w * w := by
  have h := le_smul_ceilDiv (a := w) (b := a) hw
  rw [Nat.ceilDiv_eq_add_pred_div] at h
  unfold jsCeilDiv
  calc a ≤ w * ((a + w - 1) / w) := by simpa [smul_eq_mul] using h
    _ = (a + w - 1) / w * w := Nat.mul_comm _ _

/-- A buffer strictly longer than the slice width needs at least two
slices. -/
theorem two_le_jsCeilDiv (a w : Nat) (hw : 0 < w) (h : w < a) : 2 ≤ jsCeilDiv a w := by
  unfold jsCeilDiv
  rw [Nat.le_div_iff_mul_le hw]
  omega

/-- The function `mkTransferFrames` only reads the frame-size, channel, handle and
settle-mode fields of the link. -/
theorem mkTransferFrames_congr (fo mid : Nat) (dt mb : List Nat) (l₁ l₂ : SenderLink)
    (h1 : l₁.maxFrameSize = l₂.maxFrameSize) (h2 : l₁.channel = l₂.channel)
    (h3 : l₁.handle = l₂.handle) (h4 : l₁.senderSettled = l₂.senderSettled) :
    mkTransferFrames fo l₁ mid dt mb = mkTransferFrames fo l₂ mid dt mb := by
  unfold mkTransferFrames
  rw [h1, h2, h3, h4]

/-- On the `canSend()` path, `_sendMessage` emits exactly the frames
`mkTransferFrames` builds for the pre-increment `nextOutgoingId`. -/
theorem sendMessage_emits_mkTransferFrames (fo : Nat) (l : SenderLink) (mb dt : List Nat)
    (h : l.canSend = true) :
    ∃ l', SenderLink.sendMessage fo l mb dt =
      (Except.ok (l.nextOutgoingId, mkTransferFrames fo l l.nextOutgoingId dt mb), l') := by
  rcases (canSend_eq_true_iff l).1 h with ⟨-, hc, hw⟩
  have hc' : ¬ l.linkCredit ≤ 0 := by omega
  by_cases hwin : l.remoteIncomingWindow - 1 < 0
  · have hesfc : l.enableSessionFlowControl = false := by
      cases he : l.enableSessionFlowControl
      · rfl
      · exact absurd (hw he) (by omega)
    refine ⟨{ l with
        nextOutgoingId := l.nextOutgoingId + 1
        remoteIncomingWindow := 0
        outgoingWindow := 0
        linkCredit := l.linkCredit - 1 }, ?_⟩
    simp [SenderLink.sendMessage, hc', hwin, hesfc]
    exact mkTransferFrames_congr fo l.nextOutgoingId dt mb _ _ rfl rfl rfl rfl
  · refine ⟨{ l with
        nextOutgoingId := l.nextOutgoingId + 1
        remoteIncomingWindow := l.remoteIncomingWindow - 1
        outgoingWindow := l.outgoingWindow - 1
        linkCredit := l.linkCredit - 1 }, ?_⟩
    simp [SenderLink.sendMessage, hc', hwin]
    exact mkTransferFrames_congr fo l.nextOutgoingId dt mb _ _ rfl rfl rfl rfl

/-- The multi-frame branch of `_sendMessage`: frame count, shared fields,
`more` flags and payload concatenation. -/
theorem mkTransferFrames_multi_spec (fo : Nat) (l : SenderLink) (mid : Nat)
    (dt mb : List Nat)
    (hideal : fo + dt.length < l.maxFrameSize)
    (hbig : l.maxFrameSize < mb.length + (fo + dt.length)) :
    (mkTransferFrames fo l mid dt mb).length =
        jsCeilDiv mb.length (l.maxFrameSize - (fo + dt.length)) ∧
    2 ≤ (mkTransferFrames fo l mid dt mb).length ∧
    (∀ f ∈ mkTransferFrames fo l mid dt mb,
      f.deliveryId = mid ∧ f.deliveryTag = dt ∧ f.handle = l.handle ∧
        f.channel = l.channel) ∧
    (∀ i, i < (mkTransferFrames fo l mid dt mb).length →
      ((mkTransferFrames fo l mid dt mb).getD i default).more =
        decide (i ≠ (mkTransferFrames fo l mid dt mb).length - 1)) ∧
    ((mkTransferFrames fo l mid dt mb).map TransferFrame.message).flatten = mb := by
  have hcond : l.maxFrameSize ≤ mb.length + (fo + dt.length) := by omega
  have hw : 0 < l.maxFrameSize - (fo + dt.length) := by omega
  have hlt : l.maxFrameSize - (fo + dt.length) < mb.length := by omega
  unfold mkTransferFrames
  rw [if_pos hcond]
  refine ⟨by simp, ?_, ?_, ?_, ?_⟩
  · simpa using two_le_jsCeilDiv mb.length _ hw hlt
  · intro f hf
    obtain ⟨j, hj, rfl⟩ := List.mem_map.1 hf
    exact ⟨rfl, rfl, rfl, rfl⟩
  · intro i hi
    simp only [List.length_map, List.length_range] at hi
    simp [List.getD, List.getElem?_map, List.getElem?_range, hi]
  · rw [List.map_map]
    have : (TransferFrame.message ∘ fun i =>
        ({ channel := l.channel, handle := l.handle, deliveryId := mid,
           deliveryTag := dt, settled := l.senderSettled,
           more := decide (i ≠ jsCeilDiv mb.length (l.maxFrameSize - (fo + dt.length)) - 1),
           message := (mb.drop (i * (l.maxFrameSize - (fo + dt.length)))).take
             (l.maxFrameSize - (fo + dt.length)) } : TransferFrame)) =
        fun i => (mb.drop (i * (l.maxFrameSize - (fo + dt.length)))).take
          (l.maxFrameSize - (fo + dt.length)) := rfl
    rw [this, chunk_map_flatten]
    exact List.take_of_length_le (le_jsCeilDiv_mul mb.length _ hw)

/-- The single-frame behaviour of `_sendMessage` for messages that do not
exceed `maxFrameSize`: one frame, `more = false`, carrying the entire
encoded message (at exact equality the split branch runs but still
produces that single full frame). -/
theorem mkTransferFrames_single_spec (fo : Nat) (l : SenderLink) (mid : Nat)
    (dt mb : List Nat)
    (hideal : fo + dt.length < l.maxFrameSize)
    (hle : mb.length + (fo + dt.length) ≤ l.maxFrameSize) :
    mkTransferFrames fo l mid dt mb =
      [{ channel := l.channel, handle := l.handle, deliveryId := mid,
         deliveryTag := dt, settled := l.senderSettled, more := false,
         message := mb }] := by
  unfold mkTransferFrames
  by_cases hc : l.maxFrameSize ≤ mb.length + (fo + dt.length)
  · have hlen : mb.length = l.maxFrameSize - (fo + dt.length) := by omega
    have hn : jsCeilDiv mb.length (l.maxFrameSize - (fo + dt.length)) = 1 := by
      rw [← hlen]
      unfold jsCeilDiv
      have h1 : 0 < mb.length := by omega
      exact Nat.div_eq_of_lt_le (by omega) (by omega)
    rw [if_pos hc, hn]
    simp [← hlen, List.range_succ, List.take_length]
  · rw [if_neg hc]

/-- C2.  When the encoded message length plus `FRAME_OVERHEAD` plus the
delivery-tag length exceeds the negotiated `maxFrameSize`, `_sendMessage`
emits exactly `ceil(len / idealMessageSize)` transfer frames with
`idealMessageSize = maxFrameSize - FRAME_OVERHEAD - len(deliveryTag)`;
every frame carries the same `deliveryId`, `deliveryTag`, `handle` and
`channel`; every frame but the last has `more = true` and the last has
`more = false`; the concatenated payloads equal the encoded message; and
only then — a message that does not exceed `maxFrameSize` goes out as a
single `more = false` frame carrying the whole buffer. -/
theorem sendMessage_multiframe_spec (fo : Nat) (l : SenderLink) (mb dt : List Nat)
    (hsend : l.canSend = true)
    (hideal : fo + dt.length < l.maxFrameSize)
    (hbig : l.maxFrameSize < mb.length + (fo + dt.length)) :
    (∃ frames l',
      SenderLink.sendMessage fo l mb dt = (Except.ok (l.nextOutgoingId, frames), l') ∧
      frames.length = jsCeilDiv mb.length (l.maxFrameSize - (fo + dt.length)) ∧
      2 ≤ frames.length ∧
      (∀ f ∈ frames, f.deliveryId = l.nextOutgoingId ∧ f.deliveryTag = dt ∧
        f.handle = l.handle ∧ f.channel = l.channel) ∧
      (∀ i, i < frames.length →
        (frames.getD i default).more = decide (i ≠ frames.length - 1)) ∧
      (frames.map TransferFrame.message).flatten = mb) ∧
    (∀ mbs : List Nat, mbs.length + (fo + dt.length) ≤ l.maxFrameSize →
      ∃ f l'', SenderLink.sendMessage fo l mbs dt =
        (Except.ok (l.nextOutgoingId, [f]), l'') ∧
        f.more = false ∧ f.message = mbs) := by
  constructor
  · obtain ⟨l', heq⟩ := sendMessage_emits_mkTransferFrames fo l mb dt hsend
    obtain ⟨hlen, h2, hfields, hmore, hflat⟩ :=
      mkTransferFrames_multi_spec fo l l.nextOutgoingId dt mb hideal hbig
    exact ⟨mkTransferFrames fo l l.nextOutgoingId dt mb, l', heq,
      hlen, h2, hfields, hmore, hflat⟩
  · intro mbs hle
    obtain ⟨l'', heq⟩ := sendMessage_emits_mkTransferFrames fo l mbs dt hsend
    rw [mkTransferFrames_single_spec fo l l.nextOutgoingId dt mbs hideal hle] at heq
    exact ⟨_, l'', heq, rfl, rfl⟩

/-- C2, witness: a link with `maxFrameSize = 4`, overhead constant 2 and
a one-byte tag (ideal slice width 1) splits the five-byte message
`[1,2,3,4,5]` into five frames. -/
theorem sendMessage_multiframe_spec_witness :
    (∃ frames l',
      SenderLink.sendMessage 2
          { strictWindowExhaustedLink with remoteIncomingWindow := 1, maxFrameSize := 4 }
          [1, 2, 3, 4, 5] [49] = (Except.ok (1, frames), l') ∧
      frames.length = jsCeilDiv 5 (4 - (2 + 1)) ∧
      2 ≤ frames.length ∧
      (∀ f ∈ frames, f.deliveryId = 1 ∧ f.deliveryTag = [49] ∧
        f.handle = 0 ∧ f.channel = 1) ∧
      (∀ i, i < frames.length →
        (frames.getD i default).more = decide (i ≠ frames.length - 1)) ∧
      (frames.map TransferFrame.message).flatten = [1, 2, 3, 4, 5]) ∧
    (∀ mbs : List Nat, mbs.length + (2 + 1) ≤ 4 →
      ∃ f l'', SenderLink.sendMessage 2
          { strictWindowExhaustedLink with remoteIncomingWindow := 1, maxFrameSize := 4 }
          mbs [49] = (Except.ok (1, [f]), l'') ∧
        f.more = false ∧ f.message = mbs) :=
  sendMessage_multiframe_spec 2
    { strictWindowExhaustedLink with remoteIncomingWindow := 1, maxFrameSize := 4 }
    [1, 2, 3, 4, 5] [49] (by decide) (by decide) (by decide)

/-- A single `_dispositionReceived` call fires the resolver for `i`
exactly when `i` is registered, the disposition is settled and its range
covers `i`. -/
theorem dispositionReceived_count (l : SenderLink) (d : DispositionDetails) (i : Nat) :
    ((l.dispositionReceived d).1.map FiredResolver.messageId).count i =
      (if i ∈ l.unsettledSends ∧ d.settled = true ∧ dispositionCovers d i = true
       then 1 else 0) := by
  unfold SenderLink.dispositionReceived
  cases hs : d.settled
  · simp
  · simp only [hs, Bool.not_true, Bool.false_eq_true, if_false, List.map_map]
    have hid : (FiredResolver.messageId ∘ fun j =>
        ({ messageId := j, err := rejectedErrorOf d.state, state := d.state } :
          FiredResolver)) = id := rfl
    rw [hid, List.map_id]
    have hnodup : ((List.range' d.first (dispositionRangeLast d + 1 - d.first)).filter
        (fun j => l.unsettledSends.contains j)).Nodup :=
      (List.nodup_range' d.first (dispositionRangeLast d + 1 - d.first)).filter _
    by_cases hm : i ∈ (List.range' d.first (dispositionRangeLast d + 1 - d.first)).filter
        (fun j => l.unsettledSends.contains j)
    · rw [List.count_eq_one_of_mem hnodup hm]
      rw [List.mem_filter] at hm
      obtain ⟨hr, hcont⟩ := hm
      rw [List.mem_range'_1] at hr
      have hcov : dispositionCovers d i = true := by
        simp only [dispositionCovers, Bool.and_eq_true, decide_eq_true_eq]
        omega
      have hin : i ∈ l.unsettledSends := by
        simpa [List.contains, List.elem_eq_mem] using hcont
      simp [hin, hcov]
    · rw [List.count_eq_zero_of_not_mem hm]
      rw [List.mem_filter] at hm
      by_cases hin : i ∈ l.unsettledSends
      · have hcov : ¬ dispositionCovers d i = true := by
          intro hcov
          apply hm
          refine ⟨?_, by simpa [List.contains, List.elem_eq_mem] using hin⟩
          rw [List.mem_range'_1]
          simp only [dispositionCovers, Bool.and_eq_true, decide_eq_true_eq] at hcov
          omega
        simp [hin, hcov]
      · simp [hin]

/-- The handler `_dispositionReceived` deletes exactly the registered ids its range
settles. -/
theorem dispositionReceived_unsettled_mem (l : SenderLink) (d : DispositionDetails)
    (i : Nat) :
    (i ∈ (l.dispositionReceived d).2.unsettledSends) ↔
      (i ∈ l.unsettledSends ∧ ¬(d.settled = true ∧ dispositionCovers d i = true)) := by
  unfold SenderLink.dispositionReceived
  cases hs : d.settled
  · simp
  · simp [List.mem_filter, dispositionCovers]
    intro _
    omega

/-- Over a whole sequence of dispositions, the resolver registered for `i`
fires exactly once when some settled disposition in the sequence covers
`i`, and never otherwise. -/
theorem processDispositions_count (l : SenderLink) (ds : List DispositionDetails)
    (i : Nat) :
    ((l.processDispositions ds).1.map FiredResolver.messageId).count i =
      (if i ∈ l.unsettledSends ∧
          ∃ d ∈ ds, d.settled = true ∧ dispositionCovers d i = true
       then 1 else 0) := by
  induction ds generalizing l with
  | nil => simp [SenderLink.processDispositions]
  | cons d rest ih =>
      simp only [SenderLink.processDispositions, List.map_append, List.count_append]
      rw [dispositionReceived_count, ih]
      by_cases h1 : i ∈ l.unsettledSends
      · by_cases h2 : d.settled = true ∧ dispositionCovers d i = true
        · have hnot : ¬ i ∈ (l.dispositionReceived d).2.unsettledSends := by
            rw [dispositionReceived_unsettled_mem]
            tauto
          simp [h1, h2, hnot]
        · have hsame : (i ∈ (l.dispositionReceived d).2.unsettledSends) ↔
              i ∈ l.unsettledSends := by
            rw [dispositionReceived_unsettled_mem]
            tauto
          by_cases h3 : ∃ d' ∈ rest, d'.settled = true ∧ dispositionCovers d' i = true
          · simp [h1, h2, h3, hsame.2 h1]
          · simp [h1, h2, h3, hsame.2 h1]
      · have hnot : ¬ i ∈ (l.dispositionReceived d).2.unsettledSends := by
          rw [dispositionReceived_unsettled_mem]
          tauto
        simp [h1, hnot]

/-- Every fired resolver receives the rejection error exactly when the
disposition state it was fired with is `Rejected`. -/
theorem processDispositions_err (l : SenderLink) (ds : List DispositionDetails) :
    ∀ f ∈ (l.processDispositions ds).1, f.err = rejectedErrorOf f.state := by
  induction ds generalizing l with
  | nil => simp [SenderLink.processDispositions]
  | cons d rest ih =>
      intro f hf
      simp only [SenderLink.processDispositions, List.mem_append] at hf
      rcases hf with hf | hf
      · unfold SenderLink.dispositionReceived at hf
        cases hs : d.settled
        · simp [hs] at hf
        · simp only [hs, Bool.not_true, Bool.false_eq_true, if_false,
            List.mem_map] at hf
          obtain ⟨j, hj, rfl⟩ := hf
          rfl
      · exact ih _ f hf

/-- The method `_sendMessage` never touches `_unsettledSends`. -/
theorem sendMessage_preserves_unsettled (fo : Nat) (l : SenderLink) (mb dt : List Nat) :
    (SenderLink.sendMessage fo l mb dt).2.unsettledSends = l.unsettledSends := by
  unfold SenderLink.sendMessage
  by_cases h0 : l.linkCredit ≤ 0
  · simp [h0]
  · by_cases h1 : l.remoteIncomingWindow - 1 < 0 <;>
      cases he : l.enableSessionFlowControl <;> simp [h0, h1, he]

/-- C3.  With the `OnSettle` callback policy every successful `send`
registers a resolver under the assigned delivery-id in `_unsettledSends`;
over any sequence of incoming dispositions that resolver fires exactly
once, precisely at the first settled disposition whose `[first, last]`
range covers the delivery-id (never when no settled covering disposition
arrives); each fired resolver is rejected with the carried error exactly
when the disposition state is `Rejected` and resolved with the state
otherwise; and a disposition with `settled = false` fires no resolver at
all. -/
theorem onSettle_disposition_correlation (fo : Nat) (l : SenderLink)
    (mb : List Nat) (ds : List DispositionDetails) (i : Nat)
    (hsend : l.canSend = true) :
    (∃ frames l₁,
      SenderLink.send fo CallbackPolicy.onSettle l mb =
        (SendOutcome.settledPending l.nextOutgoingId frames, l₁) ∧
      l₁.unsettledSends = l.unsettledSends ++ [l.nextOutgoingId]) ∧
    (((l.processDispositions ds).1.map FiredResolver.messageId).count i =
      (if i ∈ l.unsettledSends ∧
          ∃ d ∈ ds, d.settled = true ∧ dispositionCovers d i = true
       then 1 else 0)) ∧
    (∀ f ∈ (l.processDispositions ds).1, f.err = rejectedErrorOf f.state) ∧
    (∀ d : DispositionDetails, d.settled = false →
      (l.dispositionReceived d).1 = []) := by
  refine ⟨?_, processDispositions_count l ds i, processDispositions_err l ds, ?_⟩
  · have hsend0 : ({ l with deliveryTag := l.deliveryTag + 1 } : SenderLink).canSend
        = true := by
      simpa [SenderLink.canSend] using hsend
    obtain ⟨frames, l', heq⟩ := sendMessage_ok_of_canSend fo
      { l with deliveryTag := l.deliveryTag + 1 } mb (natTagBytes l.deliveryTag) hsend0
    have hpres : l'.unsettledSends = l.unsettledSends := by
      have hp := sendMessage_preserves_unsettled fo
        { l with deliveryTag := l.deliveryTag + 1 } mb (natTagBytes l.deliveryTag)
      rw [heq] at hp
      simpa using hp
    refine ⟨frames, { l' with unsettledSends := l'.unsettledSends ++ [l.nextOutgoingId] },
      ?_, by rw [hpres]⟩
    simp [SenderLink.send, hsend0, heq]
  · intro d hd
    unfold SenderLink.dispositionReceived
    simp [hd]

/-- C3, witness: a settled `Accepted` disposition for delivery-id 1 fires
the resolver registered under 1 exactly once. -/
theorem onSettle_disposition_correlation_witness :
    ((SenderLink.processDispositions
        { strictWindowExhaustedLink with remoteIncomingWindow := 1, unsettledSends := [1] }
        [{ settled := true
           state := some DeliveryStateModel.accepted
           first := 1
           last := some 1 }]).1.map FiredResolver.messageId).count 1 =
      (if 1 ∈ ({ strictWindowExhaustedLink with
            remoteIncomingWindow := 1
            unsettledSends := [1] } : SenderLink).unsettledSends ∧
          ∃ d ∈ [({ settled := true
                    state := some DeliveryStateModel.accepted
                    first := 1
                    last := some 1 } : DispositionDetails)],
            d.settled = true ∧ dispositionCovers d 1 = true
       then 1 else 0) :=
  (onSettle_disposition_correlation 29
    { strictWindowExhaustedLink with remoteIncomingWindow := 1, unsettledSends := [1] }
    [48]
    [{ settled := true
       state := some DeliveryStateModel.accepted
       first := 1
       last := some 1 }]
    1 (by decide)).2.1

/-- C8.  Whenever the peer's first 8 bytes after our AMQP header are not
the AMQP version header, the connection emits exactly one `ErrorReceived`
— a `VersionError` whose message starts with `Invalid AMQP version`
(`Credentials Expected` when the peer sent the SASL header) — and then
disconnects, tracing
`DISCONNECTED → START → HDR_SENT → DISCONNECTING → DISCONNECTED` and
never reaching `OPENED`. -/
theorem invalid_header_disconnects (peerHeader : List Nat)
    (hlen : peerHeader.length = 8)
    (hne : peerHeader ≠ amqpVersionHeader) :
    (invalidHeaderScenario peerHeader).1 =
      [ConnState.cDisconnected, ConnState.cStart, ConnState.cHdrSent,
       ConnState.cDisconnecting, ConnState.cDisconnected] ∧
    ConnState.cOpened ∉ (invalidHeaderScenario peerHeader).1 ∧
    (invalidHeaderScenario peerHeader).2 =
      [ConnectionEvent.errorReceived
        ((if peerHeader = saslVersionHeader then
            "Credentials Expected - SASL version received: "
          else
            "Invalid AMQP version received: ") ++ bytesToHexString peerHeader),
       ConnectionEvent.disconnected, ConnectionEvent.disconnected] ∧
    ((invalidHeaderScenario peerHeader).2.filter isErrorReceivedEvent).length = 1 ∧
    (∀ m, ConnectionEvent.errorReceived m ∈ (invalidHeaderScenario peerHeader).2 →
      ∃ tail,
        m.data = (if peerHeader = saslVersionHeader then
            ("Credentials Expected" : String)
          else ("Invalid AMQP version" : String)).data ++ tail) := by
  have h8 : 8 ≤ peerHeader.length := by omega
  have htake : peerHeader.take 8 = peerHeader := by
    rw [← hlen]
    exact List.take_length peerHeader
  have hrun : invalidHeaderScenario peerHeader =
      ([ConnState.cDisconnected, ConnState.cStart, ConnState.cHdrSent,
        ConnState.cDisconnecting, ConnState.cDisconnected],
       [ConnectionEvent.errorReceived
          ((if peerHeader = saslVersionHeader then
              "Credentials Expected - SASL version received: "
            else
              "Invalid AMQP version received: ") ++ bytesToHexString peerHeader),
        ConnectionEvent.disconnected, ConnectionEvent.disconnected]) := by
    unfold invalidHeaderScenario tryReceiveHeader
    simp only [connStep, connTransition, Option.getD_some]
    rw [if_pos h8, htake, if_neg hne]
    simp [connStep, connTransition]
  rw [hrun]
  refine ⟨rfl, by simp, rfl, by simp [isErrorReceivedEvent], ?_⟩
  intro m hm
  have hm' : m = (if peerHeader = saslVersionHeader then
      "Credentials Expected - SASL version received: "
    else "Invalid AMQP version received: ") ++ bytesToHexString peerHeader := by
    simpa using hm
  subst hm'
  by_cases hsasl : peerHeader = saslVersionHeader
  · refine ⟨(" - SASL version received: " ++ bytesToHexString peerHeader).data, ?_⟩
    rw [if_pos hsasl, if_pos hsasl, String.data_append, String.data_append,
      ← List.append_assoc]
    congr 1
  · refine ⟨(" received: " ++ bytesToHexString peerHeader).data, ?_⟩
    rw [if_neg hsasl, if_neg hsasl, String.data_append, String.data_append,
      ← List.append_assoc]
    congr 1

/-- C8, witness at the peer bytes `"BOGUS_HE"`. -/
theorem invalid_header_disconnects_witness :
    (invalidHeaderScenario [66, 79, 71, 85, 83, 95, 72, 69]).1 =
      [ConnState.cDisconnected, ConnState.cStart, ConnState.cHdrSent,
       ConnState.cDisconnecting, ConnState.cDisconnected] ∧
    ((invalidHeaderScenario [66, 79, 71, 85, 83, 95, 72, 69]).2.filter
      isErrorReceivedEvent).length = 1 :=
  ⟨(invalid_header_disconnects [66, 79, 71, 85, 83, 95, 72, 69]
      (by decide) (by decide)).1,
   (invalid_header_disconnects [66, 79, 71, 85, 83, 95, 72, 69]
      (by decide) (by decide)).2.2.2.1⟩

end Amqp10
